import Mathlib

/-!
Verification development for the backend_railway LLM request-dispatch core.

This file shallowly embeds the Python sources of the repository:
  * app/services/llm_service.py    (credential rotation, retry loop, fallbacks)
  * app/services/user_limiter.py   (per-user quota tracker)
  * app/services/request_queue.py  (admission gate / stats tracker)
  * app/routes/chat.py             (the response-handling slice of send_message)

Conventions of the embedding:
  * Python floats used for timestamps, confidences and delays are modelled as
    rationals.
  * The pseudo-random draws of the source (random.choice of a model,
    random.uniform jitters) are passed in as explicit parameters, so every
    theorem quantifies over them.
  * Fallible Python code is modelled with Except: a raised exception that
    escapes a function is an Except.error value.
  * The outcome of each outbound HTTP attempt is supplied by a behaviour
    function (attempt ordinal -> outcome); this simulates the downstream
    endpoint including timeouts, connection failures and other exceptions.
-/

namespace BackendRailway

/-! ## Quota tracker: app/services/user_limiter.py -/

/-- State of UserPromptLimiter.  The Python field user_prompts is a
defaultdict(deque) keyed by user id; it is modelled as a total function from
user id to the (oldest-first) list of recorded timestamps, with the default of
the missing key being the empty list. -/
structure UserPromptLimiter where
  max_prompts_per_user : Nat
  reset_hours : Nat
  user_prompts : String → List ℚ

/-- Embeds UserPromptLimiter._cleanup_old_prompts: pops entries from the front
of the user's deque while they are older than reset_hours.  The current time
(Python time.time()) is an explicit parameter. -/
def cleanup_old_prompts (L : UserPromptLimiter) (now : ℚ) (user_id : String) :
    UserPromptLimiter :=
  let cutoff_time : ℚ := now - (L.reset_hours : ℚ) * 3600
  { L with user_prompts := fun u =>
      if u = user_id then (L.user_prompts u).dropWhile (fun t => decide (t < cutoff_time))
      else L.user_prompts u }

/-- Embeds UserPromptLimiter.can_user_make_prompt.  The module-level global
PROMPT_LIMIT_ENABLED is read at call time in the source, so it is passed as the
parameter `enabled`.  Returns the (can_make_prompt, prompts_used,
prompts_remaining) triple together with the post-call limiter state (the
cleanup is a side effect of the check).  Python's max(0, a - b) on ints is
truncated Nat subtraction here. -/
def can_user_make_prompt (enabled : Bool) (L : UserPromptLimiter) (now : ℚ)
    (user_id : String) : (Bool × Nat × Nat) × UserPromptLimiter :=
  if !enabled then ((true, 0, L.max_prompts_per_user), L)
  else
    let L1 := cleanup_old_prompts L now user_id
    let prompts_used := (L1.user_prompts user_id).length
    let prompts_remaining := L1.max_prompts_per_user - prompts_used
    ((decide (prompts_used < L1.max_prompts_per_user), prompts_used, prompts_remaining), L1)

/-- Embeds UserPromptLimiter.record_prompt: re-runs the check; if not allowed
returns false without mutation, else appends the current timestamp to the
user's deque and returns true. -/
def record_prompt (enabled : Bool) (L : UserPromptLimiter) (now : ℚ)
    (user_id : String) : Bool × UserPromptLimiter :=
  let checked := can_user_make_prompt enabled L now user_id
  let can_prompt := checked.1.1
  let L1 := checked.2
  if !can_prompt then (false, L1)
  else (true, { L1 with user_prompts := fun u =>
                  if u = user_id then L1.user_prompts u ++ [now]
                  else L1.user_prompts u })

/-- Driver for the quota scenario of the spec: perform, for each time in `ts`
in order, one check followed by one record, collecting the observable results
of every call. -/
def quota_run (enabled : Bool) (user_id : String) :
    UserPromptLimiter → List ℚ → List ((Bool × Nat × Nat) × Bool) × UserPromptLimiter
  | L, [] => ([], L)
  | L, t :: ts =>
      let c := can_user_make_prompt enabled L t user_id
      let r := record_prompt enabled c.2 t user_id
      let rest := quota_run enabled user_id r.2 ts
      ((c.1, r.1) :: rest.1, rest.2)

/-! ## LLM service state: app/services/llm_service.py -/

/-- Mutable state of the LLMService singleton.  api_keys and models are loaded
once from configuration in __init__ and never mutated afterwards;
current_key_index starts at 0; last_used_model / last_used_key start as None
and are set on a successful attempt. -/
structure LLMService where
  api_keys : List String
  models : List String
  current_key_index : Nat
  last_used_model : Option String
  last_used_key : Option String

/-- Embeds LLMService.get_next_api_key: raises when the pool is empty,
otherwise returns the credential at the cursor and advances the cursor by one
modulo the pool size, regardless of any earlier outcome. -/
def get_next_api_key (s : LLMService) : Except String (String × LLMService) :=
  if s.api_keys.isEmpty then .error "No API keys available"
  else
    match s.api_keys[s.current_key_index]? with
    | none => .error "IndexError"
    | some key =>
        .ok (key, { s with
          current_key_index := (s.current_key_index + 1) % s.api_keys.length })

/-- N successive get_next_api_key calls, collecting the returned credentials in
order.  No outcome information flows into the rotator, mirroring the source
where rotation ignores success or failure of the attempt. -/
def rotN (s : LLMService) : Nat → Except String (List String × LLMService)
  | 0 => .ok ([], s)
  | n + 1 =>
      match get_next_api_key s with
      | .error e => .error e
      | .ok (k, s1) =>
          match rotN s1 n with
          | .error e => .error e
          | .ok (ks, s2) => .ok (k :: ks, s2)

/-! ## Prompt and fallback text: app/services/llm_service.py -/

/-- Substring test used to embed Python's "keyword in text". -/
def strContains (hay needle : String) : Bool :=
  hay.toList.tails.any (fun t => needle.toList.isPrefixOf t)

/-- The subject_prompts dict lookup of get_educational_system_prompt, with its
default branch for an unknown subject. -/
def subject_prompt_for (subject : String) : String :=
  match subject.toLower with
  | "matematika" => "🔢 Kamu adalah spesialis matematika yang bisa menjelaskan konsep rumit dengan cara sederhana dan menyenangkan!"
  | "fisika" => "⚛️ Kamu adalah ahli fisika yang membuat eksperimen dan konsep fisika menjadi menarik dan mudah dipahami!"
  | "kimia" => "🧪 Kamu adalah guru kimia yang passionate, selalu siap menjelaskan reaksi dan unsur dengan cara yang aman dan menarik!"
  | "biologi" => "🌿 Kamu adalah biologis yang cinta alam, siap menjelaskan kehidupan dan makhluk hidup dengan penuh antusiasme!"
  | "sejarah" => "📚 Kamu adalah pencerita sejarah yang hebat, membuat masa lalu hidup dan relevan untuk siswa!"
  | "bahasa" => "📝 Kamu adalah guru bahasa yang kreatif, membantu siswa mengekspresikan diri dengan lebih baik!"
  | "geografi" => "🌍 Kamu adalah penjelajah dunia yang membantu siswa memahami planet kita dengan cara yang menarik!"
  | _ => "📖 Kamu adalah guru yang passionate di bidang " ++ subject ++ "!"

/-- The emotion_templates dict of get_educational_system_prompt; an
unrecognized emotion falls back to the Netral entry. -/
def emotion_template_for (emotion : String) : String :=
  match emotion with
  | "Senang" =>
      "🎉 Siswa sedang merasa senang dan bersemangat! " ++
      "Manfaatkan energi positif ini untuk:\n" ++
      "- Berikan pujian yang tulus atas usaha mereka\n" ++
      "- Bagikan fakta menarik atau tips belajar yang fun\n" ++
      "- Dorong mereka untuk terus belajar dengan semangat\n" ++
      "- Gunakan emoji dan bahasa yang ceria 😊✨"
  | "Bingung" =>
      "🤔 Siswa sedang merasa bingung dan butuh bantuan. " ++
      "Jadilah guru yang sabar dengan:\n" ++
      "- Akui kebingungan mereka dengan empati\n" ++
      "- Jelaskan step-by-step dari dasar\n" ++
      "- Gunakan analogi sederhana dan contoh konkret\n" ++
      "- Tanyakan apakah penjelasan sudah jelas 💡"
  | "Frustrasi" =>
      "😤 Siswa sedang frustrasi dan butuh dukungan. " ++
      "Berikan respons yang menenangkan:\n" ++
      "- Akui perasaan frustrasi mereka\n" ++
      "- Pecahkan masalah menjadi langkah kecil\n" ++
      "- Berikan dorongan positif\n" ++
      "- Ingatkan bahwa belajar adalah proses 💪"
  | "Marah" =>
      "😠 Siswa sedang marah dan perlu pendekatan hati-hati. " ++
      "Tetap tenang dan:\n" ++
      "- Akui perasaan mereka tanpa judgment\n" ++
      "- Berikan solusi praktis dan jelas\n" ++
      "- Hindari bahasa yang bisa memicu emosi\n" ++
      "- Fokus pada membantu menyelesaikan masalah 🤝"
  | _ =>
      "🤖 Siswa dalam keadaan netral dan siap belajar. " ++
      "Berikan respons yang:\n" ++
      "- Jelas dan informatif\n" ++
      "- Langsung ke inti materi\n" ++
      "- Menggunakan contoh praktis\n" ++
      "- Tetap hangat dan mendukung 📚"

/-- Embeds LLMService.get_educational_system_prompt.  Python's falsy test
`if subject:` skips both None and the empty string. -/
def get_educational_system_prompt (emotion : String) (subject : Option String) : String :=
  let base_prompt :=
    "Kamu adalah EduBot 🎓, seorang guru AI yang sangat empatik, sabar, dan menyenangkan! " ++
    "PENTING: Kamu memiliki maksimal 1000 token untuk merespons. Pastikan jawaban kamu lengkap dan tidak terpotong di tengah kalimat. " ++
    "Jika topiknya panjang, buat ringkasan yang terstruktur atau tawarkan untuk melanjutkan di pesan berikutnya. " ++
    "Kamu membantu siswa belajar dengan cara yang interaktif dan penuh semangat. " ++
    "\nKarakteristik kamu:\n" ++
    "✨ Selalu positif dan mendukung siswa\n" ++
    "🎯 Memberikan penjelasan yang mudah dipahami\n" ++
    "💡 Menggunakan contoh praktis dan analogi menarik\n" ++
    "🎊 Merayakan setiap kemajuan siswa, sekecil apapun\n" ++
    "🌟 Memberikan tips belajar yang efektif\n" ++
    "📚 Menyediakan informasi yang akurat dan factual\n" ++
    "🤗 Memahami dan merespons emosi siswa dengan tepat\n" ++
    "\nSelalu gunakan:\n" ++
    "- Emoji yang sesuai untuk membuat percakapan lebih hidup\n" ++
    "- Bahasa Indonesia yang ramah dan hangat\n" ++
    "- Pujian dan dorongan positif\n" ++
    "- Contoh konkret untuk memperjelas konsep\n"
  let base_prompt :=
    match subject with
    | some subj =>
        if subj = "" then base_prompt
        else base_prompt ++ "\n" ++ subject_prompt_for subj ++ "\n"
    | none => base_prompt
  base_prompt ++ "\n" ++ emotion_template_for emotion

/-- Embeds LLMService._enhance_educational_response: appends the
emotion-acknowledgement line above confidence 0.85 and the emotion-specific
learning tip above confidence 0.7. -/
def enhance_educational_response (response emotion : String) (confidence : ℚ) : String :=
  let response :=
    if confidence > 85 / 100 then
      let emotion_emoji :=
        match emotion with
        | "Senang" => "😊"
        | "Netral" => "🤖"
        | "Bingung" => "🤔"
        | "Frustrasi" => "😤"
        | "Marah" => "😠"
        | _ => "🤖"
      response ++ "\n\n" ++ emotion_emoji ++ " *Aku bisa merasakan kamu sedang " ++
        emotion.toLower ++ " nih!*"
    else response
  let tip : Option String :=
    match emotion with
    | "Senang" => some "\n\n💡 **Tips**: Manfaatkan semangat positif ini untuk mempelajari topik baru!"
    | "Bingung" => some "\n\n💡 **Tips**: Tidak apa-apa bingung, itu artinya otak kamu sedang bekerja keras!"
    | "Frustrasi" => some "\n\n💡 **Tips**: Istirahat sebentar, lalu coba dengan pendekatan yang berbeda ya!"
    | "Marah" => some "\n\n💡 **Tips**: Tarik nafas dalam-dalam, mari kita selesaikan ini bersama-sama."
    | _ => none
  match tip with
  | some t => if confidence > 7 / 10 then response ++ t else response
  | none => response

/-- Embeds LLMService._get_fallback_response (the generic educational
fallback), including its keyword-based subject detection on the lower-cased
user message. -/
def get_fallback_response (emotion user_message : String) : String :=
  let netral := "📚 Halo! Aku EduBot, siap membantu kamu belajar dengan cara yang menyenangkan. Apa yang ingin kita pelajari hari ini? 🤖"
  let base_response :=
    match emotion with
    | "Senang" => "🎉 Wah, senang banget denger semangat kamu! Aku siap membantu kamu belajar lebih banyak lagi. Ada yang ingin kamu tanyakan? 😊"
    | "Netral" => netral
    | "Bingung" => "🤔 Aku paham kamu merasa bingung. Gak masalah kok! Mari kita pecahkan masalah ini step by step. Bisa ceritakan lebih detail tentang apa yang membingungkan? 💡"
    | "Frustrasi" => "😤 Aku tahu perasaan frustrasi itu tidak enak. Tapi ingat, setiap ahli pernah jadi pemula! Mari kita coba pendekatan yang lebih mudah ya. Kamu pasti bisa! 💪"
    | "Marah" => "😠 Aku paham kamu sedang kesal. Mari kita ambil nafas sejenak dan fokus menyelesaikan masalah ini bersama-sama. Aku di sini untuk membantu kamu. 🤝"
    | _ => netral
  let ml := user_message.toLower
  if ["matematika", "math", "hitung"].any (fun kw => strContains ml kw) then
    base_response ++ "\n\n🔢 Oh, ini tentang matematika ya? Aku suka banget sama matematika!"
  else if ["fisika", "physics"].any (fun kw => strContains ml kw) then
    base_response ++ "\n\n⚛️ Fisika nih! Seru banget, kita bisa bahas eksperimen dan rumus-rumus keren!"
  else if ["sejarah", "history"].any (fun kw => strContains ml kw) then
    base_response ++ "\n\n📚 Sejarah! Aku punya banyak cerita menarik dari masa lalu!"
  else base_response

/-- Embeds LLMService._get_rate_limit_fallback. -/
def get_rate_limit_fallback (emotion : String) : String :=
  let netral := "🤖 Server sedang sibuk melayani banyak siswa yang sedang belajar. Silakan coba lagi dalam beberapa saat. Terima kasih atas kesabarannya! 📚"
  match emotion with
  | "Senang" => "🎉 Maaf, servernya agak sibuk nih karena banyak teman yang antusias belajar seperti kamu! Tapi aku tetap senang banget bisa chat sama kamu. Coba lagi sebentar ya! 😊"
  | "Netral" => netral
  | "Bingung" => "🤔 Waduh, servernya lagi rame nih karena banyak yang bertanya seperti kamu! Jangan khawatir, coba tanya lagi sebentar ya. Aku pasti bantu jawab kebingungan kamu! 💡"
  | "Frustrasi" => "😤 Aku tahu ini bikin frustasi, server lagi sibuk banget. Tapi tenang, coba lagi sebentar dan aku pasti jawab dengan semangat! Kamu pasti bisa mengatasi ini! 💪"
  | "Marah" => "😠 Maaf ya kalau ini bikin kesal. Server sedang sibuk tapi aku tetap di sini untuk membantu. Mohon bersabar sebentar, aku akan segera membantu kamu! 🤝"
  | _ => netral

/-- Embeds LLMService._get_timeout_fallback. -/
def get_timeout_fallback (emotion : String) : String :=
  let netral := "🤖 Koneksi agak lambat saat ini. Silakan ulangi pertanyaan kamu, aku siap membantu! 📚"
  match emotion with
  | "Senang" => "🎉 Wah, semangatmu luar biasa! Tapi koneksinya agak lambat nih. Coba tanya lagi ya, aku pasti jawab dengan antusias! 😊"
  | "Netral" => netral
  | "Bingung" => "🤔 Hmm, sepertinya ada gangguan koneksi yang bikin proses jadi lambat. Jangan khawatir, coba lagi ya! Aku tetap siap bantu! 💡"
  | "Frustrasi" => "😤 Aku paham frustrasimu karena koneksi lambat. Tapi jangan menyerah! Coba lagi dan kita selesaikan masalah ini bersama! 💪"
  | "Marah" => "😠 Maaf koneksinya bermasalah dan bikin kesal. Aku tetap di sini untuk membantu, coba lagi sebentar ya! 🤝"
  | _ => netral

/-- Embeds LLMService._get_connection_fallback. -/
def get_connection_fallback (emotion : String) : String :=
  let netral := "🤖 Terjadi gangguan koneksi. Silakan coba lagi dalam beberapa saat. Aku akan siap membantu! 📚"
  match emotion with
  | "Senang" => "🎉 Semangat belajarmu luar biasa! Sayangnya ada masalah koneksi sebentar. Tapi tetap semangat ya, coba lagi! 😊"
  | "Netral" => netral
  | "Bingung" => "🤔 Ada gangguan teknis yang bikin koneksi terputus. Gak usah tambah bingung, coba lagi aja ya! Aku pasti bantu! 💡"
  | "Frustrasi" => "😤 Aku tahu gangguan koneksi ini bikin tambah frustasi. Tapi kita jangan menyerah! Coba lagi dan mari selesaikan bersama! 💪"
  | "Marah" => "😠 Maaf banget ada masalah teknis yang bikin gangguan. Aku tetap di sini untuk membantu, coba lagi ya! 🤝"
  | _ => netral

/-! ## Dispatch core: LLMService.create_empathetic_response -/

/-- One chat message of the outbound messages list. -/
structure Msg where
  role : String
  content : String
  deriving DecidableEq, Repr

/-- The JSON payload of one outbound call, as built inside the retry loop. -/
structure Payload where
  model : String
  messages : List Msg
  max_tokens : Nat
  temperature : ℚ
  top_p : ℚ
  deriving DecidableEq, Repr

/-- Outcome of one outbound requests.post attempt, as observed by the retry
loop: an HTTP response (with the parsed choices[0].message.content when the
body has a non-empty choices array, none otherwise), or one of the exceptions
the loop catches.  exc covers requests exceptions other than Timeout and
ConnectionError as well as anything raised while decoding the body. -/
inductive AttemptResult where
  | resp (status : Nat) (answer : Option String)
  | timeout
  | connError
  | exc (msg : String)

/-- Audit record of one executed attempt: its 0-based ordinal, the credential
used, the payload sent, and the backoff sleep taken after the attempt (none
when the loop proceeded or returned without sleeping). -/
structure AttemptRecord where
  ordinal : Nat
  key : String
  payload : Payload
  backoff : Option ℚ
  deriving DecidableEq, Repr

/-- Which return statement of create_empathetic_response produced the returned
text: a live answer, or one of the four fallback classes. -/
inductive OutcomeClass where
  | success
  | generic
  | rateLimited
  | timedOut
  | connection
  deriving DecidableEq, Repr

/-- base_delay = 0.5 seconds in create_empathetic_response. -/
def base_delay : ℚ := 1 / 2

/-- The loop-invariant context of the retry loop: the behaviour of the
downstream per attempt ordinal, the PRNG draws for the randomized delays, and
the values computed once before the loop. -/
structure LoopCtx where
  beh : Nat → AttemptResult
  jitter429 : Nat → ℚ
  jitterConn : Nat → ℚ
  max_retries : Nat
  selected_model : String
  messages : List Msg
  emotion : String
  confidence : ℚ
  user_message : String

/-- Result of one dispatch: the returned text, the class of the return branch,
the LLMService state after the call, and the audit trace of the attempts. -/
def DispatchOut : Type :=
  String × OutcomeClass × LLMService × List AttemptRecord

/-- Embeds the `for attempt in range(max_retries)` retry loop of
create_empathetic_response.  The first argument after the context is the
remaining number of loop iterations (max_retries - attempt); the running
attempt ordinal, the credential selected for the previous attempt, the service
state and the audit trace follow.  Each iteration rotates the credential
(except the first, which uses the pre-loop rotation's credential), builds the
payload, and classifies the simulated outcome exactly as the source does:
200 with content returns the enhanced answer; 200 with an empty choices array
retries without delay; 429 retries after the small randomized delay; >= 500
retries after base_delay * 2 ^ attempt; any other status retries without
delay; Timeout and unexpected exceptions retry after base_delay * 2 ^ attempt;
ConnectionError retries after base_delay * 2 ^ attempt plus random jitter.
When no attempts remain each branch returns its fallback.  Falling out of the
loop (unreachable when the pool is non-empty) returns the generic fallback. -/
def attemptLoop (ctx : LoopCtx) :
    Nat → Nat → String → LLMService → List AttemptRecord → Except String DispatchOut
  | 0, _, _, s, tr =>
      .ok (get_fallback_response ctx.emotion ctx.user_message, OutcomeClass.generic, s, tr)
  | fuel + 1, attempt, key, s, tr =>
      match (if attempt > 0 then get_next_api_key s else Except.ok (key, s)) with
      | .error e => .error e
      | .ok (current_api_key, s) =>
          let payload : Payload :=
            { model := ctx.selected_model, messages := ctx.messages,
              max_tokens := 1000, temperature := 8 / 10, top_p := 9 / 10 }
          match ctx.beh attempt with
          | .resp status answer =>
              if status = 200 then
                match answer with
                | some content =>
                    let s := { s with last_used_model := some ctx.selected_model,
                                      last_used_key := some current_api_key }
                    .ok (enhance_educational_response content.trim ctx.emotion ctx.confidence,
                         OutcomeClass.success, s,
                         tr ++ [{ ordinal := attempt, key := current_api_key,
                                  payload := payload, backoff := none }])
                | none =>
                    if attempt < ctx.max_retries - 1 then
                      attemptLoop ctx fuel (attempt + 1) current_api_key s
                        (tr ++ [{ ordinal := attempt, key := current_api_key,
                                  payload := payload, backoff := none }])
                    else
                      .ok (get_fallback_response ctx.emotion ctx.user_message,
                           OutcomeClass.generic, s,
                           tr ++ [{ ordinal := attempt, key := current_api_key,
                                    payload := payload, backoff := none }])
              else if status = 429 then
                if attempt < ctx.max_retries - 1 then
                  attemptLoop ctx fuel (attempt + 1) current_api_key s
                    (tr ++ [{ ordinal := attempt, key := current_api_key,
                              payload := payload, backoff := some (ctx.jitter429 attempt) }])
                else
                  .ok (get_rate_limit_fallback ctx.emotion, OutcomeClass.rateLimited, s,
                       tr ++ [{ ordinal := attempt, key := current_api_key,
                                payload := payload, backoff := none }])
              else if 500 ≤ status then
                if attempt < ctx.max_retries - 1 then
                  attemptLoop ctx fuel (attempt + 1) current_api_key s
                    (tr ++ [{ ordinal := attempt, key := current_api_key,
                              payload := payload,
                              backoff := some (base_delay * 2 ^ attempt) }])
                else
                  .ok (get_fallback_response ctx.emotion ctx.user_message,
                       OutcomeClass.generic, s,
                       tr ++ [{ ordinal := attempt, key := current_api_key,
                                payload := payload, backoff := none }])
              else
                if attempt < ctx.max_retries - 1 then
                  attemptLoop ctx fuel (attempt + 1) current_api_key s
                    (tr ++ [{ ordinal := attempt, key := current_api_key,
                              payload := payload, backoff := none }])
                else
                  .ok (get_fallback_response ctx.emotion ctx.user_message,
                       OutcomeClass.generic, s,
                       tr ++ [{ ordinal := attempt, key := current_api_key,
                                payload := payload, backoff := none }])
          | .timeout =>
              if attempt < ctx.max_retries - 1 then
                attemptLoop ctx fuel (attempt + 1) current_api_key s
                  (tr ++ [{ ordinal := attempt, key := current_api_key,
                            payload := payload,
                            backoff := some (base_delay * 2 ^ attempt) }])
              else
                .ok (get_timeout_fallback ctx.emotion, OutcomeClass.timedOut, s,
                     tr ++ [{ ordinal := attempt, key := current_api_key,
                              payload := payload, backoff := none }])
          | .connError =>
              if attempt < ctx.max_retries - 1 then
                attemptLoop ctx fuel (attempt + 1) current_api_key s
                  (tr ++ [{ ordinal := attempt, key := current_api_key,
                            payload := payload,
                            backoff := some (base_delay * 2 ^ attempt + ctx.jitterConn attempt) }])
              else
                .ok (get_connection_fallback ctx.emotion, OutcomeClass.connection, s,
                     tr ++ [{ ordinal := attempt, key := current_api_key,
                              payload := payload, backoff := none }])
          | .exc _ =>
              if attempt < ctx.max_retries - 1 then
                attemptLoop ctx fuel (attempt + 1) current_api_key s
                  (tr ++ [{ ordinal := attempt, key := current_api_key,
                            payload := payload,
                            backoff := some (base_delay * 2 ^ attempt) }])
              else
                .ok (get_fallback_response ctx.emotion ctx.user_message,
                     OutcomeClass.generic, s,
                     tr ++ [{ ordinal := attempt, key := current_api_key,
                              payload := payload, backoff := none }])

/-- Builds the outbound messages list of create_empathetic_response: the
system prompt, then (when context was given and non-empty, mirroring Python's
falsy test) the context list minus its final element, then the new user turn. -/
def buildMessages (system_prompt : String) (context_messages : Option (List Msg))
    (user_message : String) : List Msg :=
  let messages := [{ role := "system", content := system_prompt : Msg }]
  let messages :=
    match context_messages with
    | some ctx => if ctx = [] then messages else messages ++ ctx.dropLast
    | none => messages
  messages ++ [{ role := "user", content := user_message : Msg }]

/-- Embeds LLMService.create_empathetic_response.  beh simulates the
downstream per attempt; jitter429 / jitterConn / initial_delay are the PRNG
draws for the randomized sleeps (initial_delay models the pre-call jitter
sleep, which has no observable effect in this state model); selected_model is
the result of the single random.choice(self.models) taken before the loop;
max_retries = len(api_keys) * 2.  The pre-loop get_next_api_key raises out of
the function when the pool is empty, exactly as in the source. -/
def create_empathetic_response (beh : Nat → AttemptResult)
    (jitter429 jitterConn : Nat → ℚ) (initial_delay : ℚ) (svc : LLMService)
    (user_message emotion : String) (confidence : ℚ)
    (context_messages : Option (List Msg)) (conversation_subject : Option String)
    (selected_model : String) : Except String DispatchOut :=
  let messages := buildMessages (get_educational_system_prompt emotion conversation_subject)
    context_messages user_message
  let _ := initial_delay
  let max_retries := svc.api_keys.length * 2
  match get_next_api_key svc with
  | .error e => .error e
  | .ok (current_api_key, s) =>
      attemptLoop
        { beh := beh, jitter429 := jitter429, jitterConn := jitterConn,
          max_retries := max_retries, selected_model := selected_model,
          messages := messages, emotion := emotion, confidence := confidence,
          user_message := user_message }
        max_retries 0 current_api_key s []

/-! ## Admission gate / stats tracker: app/services/request_queue.py -/

/-- Counter state of SimpleStatsTracker.  The asyncio.Semaphore(50) and the
asyncio.Lock of the source are concurrency primitives; this sequential
embedding keeps the observable counters they guard. -/
structure SimpleStatsTracker where
  total_requests : Nat
  failed_requests : Nat

/-- Embeds SimpleStatsTracker.add_request for one wrapped operation whose
result (normal return or raised exception) is the parameter `op`.  The counter
total_requests is incremented on entry; a raised exception increments
failed_requests and is re-raised (returned as Except.error). -/
def add_request (T : SimpleStatsTracker) (op : Except String String) :
    Except String String × SimpleStatsTracker :=
  let T1 : SimpleStatsTracker := { T with total_requests := T.total_requests + 1 }
  match op with
  | .ok a => (.ok a, T1)
  | .error e => (.error e, { T1 with failed_requests := T1.failed_requests + 1 })

/-- Values occurring in the dict returned by get_stats. -/
inductive StatValue where
  | s (v : String)
  | n (v : Nat)
  | q (v : ℚ)
  deriving DecidableEq, Repr

/-- Embeds SimpleStatsTracker.get_stats.  The Python dict literal is modelled
as an ordered key/value list; datetime.now().isoformat() is the parameter
`timestamp`.  Python's true division on ints is rational division here. -/
def get_stats (T : SimpleStatsTracker) (timestamp : String) : List (String × StatValue) :=
  [("mode", .s "minimal_throttling"),
   ("total_requests", .n T.total_requests),
   ("failed_requests", .n T.failed_requests),
   ("success_rate", .q (((T.total_requests : ℚ) - (T.failed_requests : ℚ)) /
      ((max T.total_requests 1 : Nat) : ℚ) * 100)),
   ("message", .s "Minimal throttling - 50 concurrent max to avoid OpenRouter 429s"),
   ("timestamp", .s timestamp)]

/-! ## Response-handling slice of send_message: app/routes/chat.py -/

/-- Outcome of `await asyncio.wait_for(request_queue.add_request(...), 30)` in
send_message: either the wrapped dispatch completed (normally or with a raised
exception) or the 30s end-to-end deadline fired (asyncio.TimeoutError). -/
inductive QueueOutcome where
  | completed (result : Except String String)
  | timedOut
  deriving Repr

/-- The value bound to ai_content in send_message: on asyncio.TimeoutError the
handler substitutes the canned apology text; a different exception keeps
propagating to the surrounding handler. -/
def ai_content_of (q : QueueOutcome) : Except String String :=
  match q with
  | .completed r => r
  | .timedOut => .ok "I apologize, but the response took too long. Please try again."

/-- Embeds the tail of send_message (app/routes/chat.py lines 146-165): once
ai_content is available - whether it is a live answer, a fallback string
produced inside the dispatch core, or the timeout substitution - the handler
unconditionally calls user_limiter.record_prompt(user_id) before building the
response.  Returns (ai_content, record_prompt result, limiter state). -/
def send_message_finish (enabled : Bool) (L : UserPromptLimiter) (now : ℚ)
    (user_id : String) (q : QueueOutcome) :
    Except String (String × Bool × UserPromptLimiter) :=
  match ai_content_of q with
  | .error e => .error e
  | .ok ai_content =>
      let recorded := record_prompt enabled L now user_id
      .ok (ai_content, recorded.1, recorded.2)

/-! ## Helper lemmas -/

theorem get_next_api_key_eq (s : LLMService) (h : s.current_key_index < s.api_keys.length) :
    get_next_api_key s = .ok (s.api_keys.getD s.current_key_index "",
      { s with current_key_index := (s.current_key_index + 1) % s.api_keys.length }) := by
  have hne : ¬ (s.api_keys.isEmpty = true) := by
    rw [List.isEmpty_iff]
    intro hnil
    rw [hnil] at h
    simp at h
  have hget : s.api_keys[s.current_key_index]? = some (s.api_keys.getD s.current_key_index "") := by
    rw [List.getD_eq_getElem?_getD, List.getElem?_eq_getElem h]
    rfl
  unfold get_next_api_key
  rw [if_neg hne, hget]

theorem dropWhile_eq_self_of_all_false {l : List ℚ} {p : ℚ → Bool}
    (h : ∀ x ∈ l, p x = false) : l.dropWhile p = l := by
  cases l with
  | nil => rfl
  | cons a t => simp [List.dropWhile_cons, h a (List.mem_cons_self a t)]

theorem cleanup_no_evict (L : UserPromptLimiter) (now : ℚ) (uid : String)
    (h : ∀ x ∈ L.user_prompts uid, ¬ x < now - (L.reset_hours : ℚ) * 3600) :
    cleanup_old_prompts L now uid = L := by
  have hfun : (fun u => if u = uid then
        (L.user_prompts u).dropWhile (fun t => decide (t < now - (L.reset_hours : ℚ) * 3600))
      else L.user_prompts u) = L.user_prompts := by
    funext u
    by_cases hu : u = uid
    · subst hu
      rw [if_pos rfl]
      exact dropWhile_eq_self_of_all_false (fun x hx => by
        simpa using h x hx)
    · rw [if_neg hu]
  show ({ L with user_prompts := (fun u => if u = uid then
      (L.user_prompts u).dropWhile (fun t => decide (t < now - (L.reset_hours : ℚ) * 3600))
    else L.user_prompts u) } : UserPromptLimiter) = L
  rw [hfun]

theorem check_no_evict (L : UserPromptLimiter) (now : ℚ) (uid : String)
    (h : ∀ x ∈ L.user_prompts uid, ¬ x < now - (L.reset_hours : ℚ) * 3600) :
    can_user_make_prompt true L now uid =
      ((decide ((L.user_prompts uid).length < L.max_prompts_per_user),
        (L.user_prompts uid).length,
        L.max_prompts_per_user - (L.user_prompts uid).length), L) := by
  unfold can_user_make_prompt
  rw [cleanup_no_evict L now uid h]
  simp

theorem record_no_evict (L : UserPromptLimiter) (now : ℚ) (uid : String)
    (h : ∀ x ∈ L.user_prompts uid, ¬ x < now - (L.reset_hours : ℚ) * 3600)
    (hcan : (L.user_prompts uid).length < L.max_prompts_per_user) :
    record_prompt true L now uid =
      (true, { L with user_prompts := (fun u =>
                 if u = uid then L.user_prompts u ++ [now] else L.user_prompts u) }) := by
  unfold record_prompt
  rw [check_no_evict L now uid h]
  simp [decide_eq_true hcan]

theorem quota_run_spec (uid : String) (maxP W : Nat) (ts : List ℚ) :
    ∀ (L : UserPromptLimiter) (prior : List ℚ),
      L.max_prompts_per_user = maxP → L.reset_hours = W →
      L.user_prompts uid = prior →
      prior.length + ts.length ≤ maxP →
      (∀ t ∈ ts, ∀ x ∈ prior ++ ts, ¬ x < t - (W : ℚ) * 3600) →
      (quota_run true uid L ts).1 =
        (List.range ts.length).map (fun i =>
          ((true, prior.length + i, maxP - (prior.length + i)), true)) ∧
      (quota_run true uid L ts).2 =
        { L with user_prompts := (fun u =>
            if u = uid then prior ++ ts else L.user_prompts u) } := by
  induction ts with
  | nil =>
      intro L prior hmax hW hL hlen hfr
      refine ⟨rfl, ?_⟩
      show L = _
      have hfun : (fun u => if u = uid then prior ++ [] else L.user_prompts u) =
          L.user_prompts := by
        funext u
        by_cases hu : u = uid
        · subst hu; rw [if_pos rfl, List.append_nil, hL]
        · rw [if_neg hu]
      rw [hfun]
  | cons t ts ih =>
      intro L prior hmax hW hL hlen hfr
      have hmem_prior : ∀ x ∈ L.user_prompts uid, ¬ x < t - (L.reset_hours : ℚ) * 3600 := by
        intro x hx
        rw [hW]
        exact hfr t (List.mem_cons_self t ts) x
          (List.mem_append_left _ (hL ▸ hx))
      have hcan : (L.user_prompts uid).length < L.max_prompts_per_user := by
        rw [hL, hmax]
        simp only [List.length_cons] at hlen
        omega
      have hcheck := check_no_evict L t uid hmem_prior
      have hrec := record_no_evict L t uid hmem_prior hcan
      have hL2u : ({ L with user_prompts := (fun u =>
          if u = uid then L.user_prompts u ++ [t] else L.user_prompts u) } :
            UserPromptLimiter).user_prompts uid = prior ++ [t] := by
        show (if uid = uid then L.user_prompts uid ++ [t] else L.user_prompts uid) = _
        rw [if_pos rfl, hL]
      have hlen2 : (prior ++ [t]).length + ts.length ≤ maxP := by
        simp only [List.length_append, List.length_singleton]
        simp only [List.length_cons] at hlen
        omega
      have hfr2 : ∀ t2 ∈ ts, ∀ x ∈ (prior ++ [t]) ++ ts, ¬ x < t2 - (W : ℚ) * 3600 := by
        intro t2 ht2 x hx
        have hx2 : x ∈ prior ++ t :: ts := by
          rcases List.mem_append.mp hx with hx1 | hx1
          · rcases List.mem_append.mp hx1 with hx3 | hx3
            · exact List.mem_append_left _ hx3
            · exact List.mem_append_right _
                (List.mem_singleton.mp hx3 ▸ List.mem_cons_self t ts)
          · exact List.mem_append_right _ (List.mem_cons_of_mem t hx1)
        exact hfr t2 (List.mem_cons_of_mem t ht2) x hx2
      obtain ⟨ih1, ih2⟩ := ih ({ L with user_prompts := (fun u =>
          if u = uid then L.user_prompts u ++ [t] else L.user_prompts u) })
        (prior ++ [t]) hmax hW hL2u hlen2 hfr2
      simp only [quota_run]
      rw [hcheck]
      dsimp only
      rw [hrec]
      dsimp only
      refine ⟨?_, ?_⟩
      · rw [ih1, List.length_cons, List.range_succ_eq_map, List.map_cons, List.map_map]
        congr 1
        · rw [hL, hmax, decide_eq_true (by rw [hL, hmax] at hcan; exact hcan)]
          simp
        · apply List.map_congr_left
          intro i _
          simp only [Function.comp_apply, List.length_append, List.length_singleton]
          have harith : prior.length + 1 + i = prior.length + (i + 1) := by omega
          rw [harith]
      · rw [ih2]
        congr 1
        funext u
        by_cases hu : u = uid
        · rw [if_pos hu, if_pos hu, List.append_assoc, List.singleton_append]
        · rw [if_neg hu, if_neg hu]
          show (if u = uid then L.user_prompts u ++ [t] else L.user_prompts u) = _
          rw [if_neg hu]

/-! ## Claim C6: credential rotator is purely cyclic -/

/-- C6: for every N and non-empty pool of size K with cursor c0 in range, N
successive next() calls return the pool cyclically starting at the cursor
(keys[(c0+i) mod K] on call i), the cursor ends at (c0+N) mod K, and the
cursor stays inside [0, K).  The rotator receives no outcome information, so
the sequence is independent of interleaved attempt outcomes by construction
(no credential is skipped or blacklisted). -/
theorem C6_rotator_cyclic (keys models : List String) (lm lk : Option String)
    (N : Nat) (c0 : Nat) (hc : c0 < keys.length) :
    rotN ⟨keys, models, c0, lm, lk⟩ N =
      .ok ((List.range N).map (fun i => keys.getD ((c0 + i) % keys.length) ""),
           ⟨keys, models, (c0 + N) % keys.length, lm, lk⟩) ∧
    (c0 + N) % keys.length < keys.length := by
  have hK : 0 < keys.length := Nat.lt_of_le_of_lt (Nat.zero_le c0) hc
  refine ⟨?_, Nat.mod_lt _ hK⟩
  induction N generalizing c0 with
  | zero =>
      simp only [rotN, List.range_zero, List.map_nil]
      rw [Nat.add_zero, Nat.mod_eq_of_lt hc]
  | succ N ihN =>
      simp only [rotN]
      rw [get_next_api_key_eq ⟨keys, models, c0, lm, lk⟩ hc]
      have hc1 : (c0 + 1) % keys.length < keys.length := Nat.mod_lt _ hK
      dsimp only
      rw [ihN ((c0 + 1) % keys.length) hc1]
      dsimp only
      have hcur : ((c0 + 1) % keys.length + N) % keys.length =
          (c0 + (N + 1)) % keys.length := by
        rw [Nat.mod_add_mod]
        congr 1
        omega
      rw [hcur]
      congr 1
      rw [List.range_succ_eq_map, List.map_cons, List.map_map]
      congr 1
      conv_rhs => rw [Nat.add_zero, Nat.mod_eq_of_lt hc]
      congr 1
      apply List.map_congr_left
      intro i _
      simp only [Function.comp_apply, Nat.succ_eq_add_one]
      rw [Nat.mod_add_mod]
      congr 2
      omega

/-- C6 witness: the theorem applied at a pool of two credentials, cursor 1 and
five calls. -/
theorem C6_rotator_cyclic_witness :
    rotN ⟨["a", "b"], ["m"], 1, none, none⟩ 5 =
      .ok ((List.range 5).map (fun i => ["a", "b"].getD ((1 + i) % 2) ""),
           ⟨["a", "b"], ["m"], (1 + 5) % 2, none, none⟩) ∧
    (1 + 5) % 2 < 2 := by
  have h := C6_rotator_cyclic ["a", "b"] ["m"] none none 5 1 (by decide)
  exact h

/-! ## Claim C8: quota exhaustion scenario -/

/-- C8: with quota enforcement enabled and all events inside one reset window,
an identity starting from empty history (so used = 0 immediately) gets
allowed = true from every check and true from every record over maxPerWindow
check-record rounds, and the following check yields
(allowed, used, remaining) = (false, maxPerWindow, 0). -/
theorem C8_quota_exhaustion (uid : String) (ts : List ℚ) (tf : ℚ) (L : UserPromptLimiter)
    (hempty : L.user_prompts uid = [])
    (hlen : ts.length = L.max_prompts_per_user)
    (hwin : ∀ a ∈ tf :: ts, ∀ b ∈ tf :: ts, ¬ a < b - (L.reset_hours : ℚ) * 3600) :
    (quota_run true uid L ts).1 =
      (List.range L.max_prompts_per_user).map
        (fun i => ((true, i, L.max_prompts_per_user - i), true)) ∧
    (can_user_make_prompt true (quota_run true uid L ts).2 tf uid).1 =
      (false, L.max_prompts_per_user, 0) := by
  obtain ⟨h1, h2⟩ := quota_run_spec uid L.max_prompts_per_user L.reset_hours ts L [] rfl rfl
    hempty (by simp [hlen])
    (by
      intro t ht x hx
      have hx2 : x ∈ ts := by simpa using hx
      exact hwin x (List.mem_cons_of_mem _ hx2) t (List.mem_cons_of_mem _ ht))
  constructor
  · rw [h1, hlen]
    apply List.map_congr_left
    intro i _
    simp
  · rw [h2]
    have hL2u : ({ L with user_prompts := (fun u =>
        if u = uid then [] ++ ts else L.user_prompts u) } :
          UserPromptLimiter).user_prompts uid = ts := by
      show (if uid = uid then [] ++ ts else L.user_prompts uid) = ts
      rw [if_pos rfl, List.nil_append]
    rw [check_no_evict _ tf uid (by
      intro x hx
      rw [hL2u] at hx
      exact hwin x (List.mem_cons_of_mem _ hx) tf (List.mem_cons_self tf ts))]
    rw [show ({ L with user_prompts := (fun u =>
        if u = uid then [] ++ ts else L.user_prompts u) } :
          UserPromptLimiter).max_prompts_per_user = L.max_prompts_per_user from rfl]
    rw [hL2u, hlen]
    simp

/-- C8 witness: the theorem applied at identity u1, quota 3 per 24h window,
rounds at times 0, 1, 2 and a final check at time 2. -/
theorem C8_quota_exhaustion_witness :
    (quota_run true "u1" ⟨3, 24, fun _ => []⟩ [0, 1, 2]).1 =
      (List.range 3).map (fun i => ((true, i, 3 - i), true)) ∧
    (can_user_make_prompt true (quota_run true "u1" ⟨3, 24, fun _ => []⟩ [0, 1, 2]).2 2 "u1").1 =
      (false, 3, 0) := by
  have h := C8_quota_exhaustion "u1" [0, 1, 2] 2 ⟨3, 24, fun _ => []⟩ rfl rfl (by
    intro a ha b hb
    simp at ha hb
    rcases ha with rfl | rfl | rfl | rfl <;> rcases hb with rfl | rfl | rfl | rfl <;> norm_num)
  exact h

/-! ## Claim C10: the disable flag skips enforcement but not recording -/

/-- C10: with the global disable flag off, check reports
(true, 0, maxPerWindow) and leaves the limiter state untouched (no eviction),
yet record still appends the current timestamp and returns true; a later check
with the flag on (inside the window) therefore counts the accrued entry
against the limit. -/
theorem C10_disabled_toggle_accrues (L : UserPromptLimiter) (now tf : ℚ) (uid : String)
    (hfresh : ∀ x ∈ L.user_prompts uid ++ [now], ¬ x < tf - (L.reset_hours : ℚ) * 3600) :
    can_user_make_prompt false L now uid = ((true, 0, L.max_prompts_per_user), L) ∧
    (record_prompt false L now uid).1 = true ∧
    (record_prompt false L now uid).2.user_prompts uid = L.user_prompts uid ++ [now] ∧
    (can_user_make_prompt true (record_prompt false L now uid).2 tf uid).1 =
      (decide ((L.user_prompts uid).length + 1 < L.max_prompts_per_user),
       (L.user_prompts uid).length + 1,
       L.max_prompts_per_user - ((L.user_prompts uid).length + 1)) := by
  have hrec : record_prompt false L now uid =
      (true, { L with user_prompts := (fun u =>
        if u = uid then L.user_prompts u ++ [now] else L.user_prompts u) }) := rfl
  have hL2u : ({ L with user_prompts := (fun u =>
      if u = uid then L.user_prompts u ++ [now] else L.user_prompts u) } :
        UserPromptLimiter).user_prompts uid = L.user_prompts uid ++ [now] := by
    show (if uid = uid then L.user_prompts uid ++ [now] else L.user_prompts uid) = _
    rw [if_pos rfl]
  refine ⟨rfl, ?_, ?_, ?_⟩
  · rw [hrec]
  · rw [hrec]
    exact hL2u
  · rw [hrec]
    rw [check_no_evict _ tf uid (by
      intro x hx
      rw [hL2u] at hx
      exact hfresh x hx)]
    rw [show ({ L with user_prompts := (fun u =>
        if u = uid then L.user_prompts u ++ [now] else L.user_prompts u) } :
          UserPromptLimiter).max_prompts_per_user = L.max_prompts_per_user from rfl]
    rw [hL2u]
    simp [List.length_append]

/-- C10 witness: the theorem applied at an identity with empty history, the
disabled-flag record at time 0 and an enabled check at time 1. -/
theorem C10_disabled_toggle_accrues_witness :
    can_user_make_prompt false ⟨3, 24, fun _ => []⟩ 0 "u1" =
      ((true, 0, 3), ⟨3, 24, fun _ => []⟩) ∧
    (record_prompt false ⟨3, 24, fun _ => []⟩ 0 "u1").1 = true ∧
    (record_prompt false ⟨3, 24, fun _ => []⟩ 0 "u1").2.user_prompts "u1" = [0] ∧
    (can_user_make_prompt true (record_prompt false ⟨3, 24, fun _ => []⟩ 0 "u1").2 1 "u1").1 =
      (true, 1, 2) := by
  have h := C10_disabled_toggle_accrues ⟨3, 24, fun _ => []⟩ 0 1 "u1" (by
    intro x hx
    simp at hx
    subst hx
    norm_num)
  exact ⟨h.1, h.2.1, h.2.2.1, h.2.2.2⟩

/-! ## Claim C9: admission gate counters and statistics -/

/-- C9 counterexample: the dict returned by get_stats has no capacity entry at
all (the semaphore bound 50 appears only inside the human-readable message
string), contradicting the claim that getStats() returns a record containing
capacity. -/
theorem C9_counterexample :
    "capacity" ∉ (get_stats ⟨0, 0⟩ "2024-01-01T00:00:00").map Prod.fst := by
  decide

/-- C9 (amended): every admitted call increments total_requests by exactly
one; a raised exception additionally increments failed_requests by exactly one
and is re-raised to the caller; get_stats returns entries for total_requests,
failed_requests and success_rate, but no capacity entry. -/
theorem C9_stats_tracker (T : SimpleStatsTracker) (op : Except String String) (ts : String) :
    (add_request T op).2.total_requests = T.total_requests + 1 ∧
    (∀ e, op = Except.error e →
      (add_request T op).2.failed_requests = T.failed_requests + 1 ∧
      (add_request T op).1 = Except.error e) ∧
    (∀ a, op = Except.ok a →
      (add_request T op).2.failed_requests = T.failed_requests ∧
      (add_request T op).1 = Except.ok a) ∧
    "total_requests" ∈ (get_stats T ts).map Prod.fst ∧
    "failed_requests" ∈ (get_stats T ts).map Prod.fst ∧
    "success_rate" ∈ (get_stats T ts).map Prod.fst ∧
    "capacity" ∉ (get_stats T ts).map Prod.fst := by
  refine ⟨?_, ?_, ?_, ?_, ?_, ?_, ?_⟩
  · cases op <;> rfl
  · rintro e rfl
    exact ⟨rfl, rfl⟩
  · rintro a rfl
    exact ⟨rfl, rfl⟩
  · simp [get_stats]
  · simp [get_stats]
  · simp [get_stats]
  · simp [get_stats]

/-- C9 witness: the amended theorem applied at counters (5, 2) and a raising
wrapped operation. -/
theorem C9_stats_tracker_witness :
    (add_request ⟨5, 2⟩ (Except.error "boom")).2.total_requests = 6 ∧
    (add_request ⟨5, 2⟩ (Except.error "boom")).2.failed_requests = 3 ∧
    (add_request ⟨5, 2⟩ (Except.error "boom")).1 = Except.error "boom" := by
  have h := C9_stats_tracker ⟨5, 2⟩ (Except.error "boom") "t"
  exact ⟨h.1, (h.2.1 "boom" rfl).1, (h.2.1 "boom" rfl).2⟩

/-! ## Claim C2: quota is recorded even for fallback outcomes -/

/-- C2 counterexample: with one credential and a downstream that always
returns HTTP 500, the dispatch terminates in a generic-class fallback, yet
feeding its text through the send_message tail still invokes record_prompt:
the identity's quota window grows from zero entries to one. -/
theorem C2_counterexample :
    (create_empathetic_response (fun _ => AttemptResult.resp 500 none) (fun _ => 0) (fun _ => 0) 0
        ⟨["k1"], ["m1"], 0, none, none⟩ "halo" "Netral" 0 none none "m1").map
      (fun o => o.2.1) = .ok OutcomeClass.generic ∧
    (create_empathetic_response (fun _ => AttemptResult.resp 500 none) (fun _ => 0) (fun _ => 0) 0
        ⟨["k1"], ["m1"], 0, none, none⟩ "halo" "Netral" 0 none none "m1").map
      (fun o => (send_message_finish true ⟨3, 24, fun _ => []⟩ 100 "u1"
          (QueueOutcome.completed (.ok o.1))).map
        (fun r => (r.2.2.user_prompts "u1").length)) = .ok (.ok 1) ∧
    ((⟨3, 24, fun _ => []⟩ : UserPromptLimiter).user_prompts "u1").length = 0 := by
  refine ⟨rfl, rfl, rfl⟩

/-- C2 (amended): whenever the dispatch produced any text - a live answer, a
fallback string, or the end-to-end-timeout substitution - the send_message
tail invokes record_prompt unconditionally, so an identity under its limit has
its quota window grown by one entry even for fallback-served responses. -/
theorem C2_record_on_fallback (L : UserPromptLimiter) (now : ℚ) (uid : String)
    (q : QueueOutcome) (t : String)
    (hq : ai_content_of q = .ok t)
    (hno : ∀ x ∈ L.user_prompts uid, ¬ x < now - (L.reset_hours : ℚ) * 3600)
    (hcan : (L.user_prompts uid).length < L.max_prompts_per_user) :
    send_message_finish true L now uid q =
      .ok (t, true, { L with user_prompts := (fun u =>
        if u = uid then L.user_prompts u ++ [now] else L.user_prompts u) }) ∧
    (({ L with user_prompts := (fun u =>
        if u = uid then L.user_prompts u ++ [now] else L.user_prompts u) } :
        UserPromptLimiter).user_prompts uid).length = (L.user_prompts uid).length + 1 := by
  constructor
  · unfold send_message_finish
    rw [hq]
    rw [record_no_evict L now uid hno hcan]
  · show (if uid = uid then L.user_prompts uid ++ [now] else L.user_prompts uid).length = _
    rw [if_pos rfl]
    simp

/-- C2 amended-claim witness: the theorem applied at an empty-history identity
and the timeout-substitution outcome; the quota window ends with one entry. -/
theorem C2_record_on_fallback_witness :
    (send_message_finish true ⟨3, 24, fun _ => []⟩ 5 "u1" QueueOutcome.timedOut).map
      (fun r => (r.2.2.user_prompts "u1").length) = .ok 1 := by
  have h := C2_record_on_fallback ⟨3, 24, fun _ => []⟩ 5 "u1" QueueOutcome.timedOut
    "I apologize, but the response took too long. Please try again." rfl
    (by intro x hx; simp at hx) (by decide)
  rw [h.1]
  rfl

/-! ## Dispatch loop lemmas -/

theorem trace_extend {tr : List AttemptRecord} {rec : AttemptRecord} {m : String}
    (hrec : rec.payload.model = m) :
    ∀ r ∈ tr ++ [rec], r ∈ tr ∨ r.payload.model = m := by
  intro r hr
  rcases List.mem_append.mp hr with h | h
  · exact Or.inl h
  · rw [List.mem_singleton.mp h]
    exact Or.inr hrec

theorem trace_weaken {tr tr1 : List AttemptRecord} {rec : AttemptRecord} {m : String}
    (hrec : rec.payload.model = m)
    (h : ∀ r ∈ tr1, r ∈ tr ++ [rec] ∨ r.payload.model = m) :
    ∀ r ∈ tr1, r ∈ tr ∨ r.payload.model = m := by
  intro r hr
  rcases h r hr with h2 | h2
  · exact trace_extend hrec r h2
  · exact Or.inr h2

theorem attemptLoop_ok (ctx : LoopCtx) :
    ∀ (fuel attempt : Nat) (key : String) (s : LLMService) (tr : List AttemptRecord),
      s.api_keys ≠ [] → s.current_key_index < s.api_keys.length →
      ∃ text cls s1 tr1,
        attemptLoop ctx fuel attempt key s tr = .ok (text, cls, s1, tr1) ∧
        ∀ r ∈ tr1, r ∈ tr ∨ r.payload.model = ctx.selected_model := by
  intro fuel
  induction fuel with
  | zero =>
      intro attempt key s tr hne hidx
      exact ⟨_, _, _, _, rfl, fun r hr => Or.inl hr⟩
  | succ fuel ih =>
      intro attempt key s tr hne hidx
      obtain ⟨key2, s2, hrot, hne2, hidx2⟩ :
          ∃ key2 s2, (if attempt > 0 then get_next_api_key s else Except.ok (key, s)) =
              Except.ok (key2, s2) ∧ s2.api_keys ≠ [] ∧
              s2.current_key_index < s2.api_keys.length := by
        by_cases ha : attempt > 0
        · rw [if_pos ha, get_next_api_key_eq s hidx]
          exact ⟨_, _, rfl, hne, Nat.mod_lt _ (List.length_pos.mpr hne)⟩
        · rw [if_neg ha]
          exact ⟨key, s, rfl, hne, hidx⟩
      simp only [attemptLoop, hrot]
      cases hbeh : ctx.beh attempt with
      | resp status answer =>
          dsimp only
          by_cases h200 : status = 200
          · rw [if_pos h200]
            cases answer with
            | some content =>
                exact ⟨_, _, _, _, rfl, trace_extend rfl⟩
            | none =>
                by_cases hlast : attempt < ctx.max_retries - 1
                · rw [if_pos hlast]
                  obtain ⟨t, c, s3, tr3, heq, hp⟩ := ih (attempt + 1) key2 s2 _ hne2 hidx2
                  exact ⟨t, c, s3, tr3, heq, trace_weaken rfl hp⟩
                · rw [if_neg hlast]
                  exact ⟨_, _, _, _, rfl, trace_extend rfl⟩
          · rw [if_neg h200]
            by_cases h429 : status = 429
            · rw [if_pos h429]
              by_cases hlast : attempt < ctx.max_retries - 1
              · rw [if_pos hlast]
                obtain ⟨t, c, s3, tr3, heq, hp⟩ := ih (attempt + 1) key2 s2 _ hne2 hidx2
                exact ⟨t, c, s3, tr3, heq, trace_weaken rfl hp⟩
              · rw [if_neg hlast]
                exact ⟨_, _, _, _, rfl, trace_extend rfl⟩
            · rw [if_neg h429]
              by_cases h500 : 500 ≤ status
              · rw [if_pos h500]
                by_cases hlast : attempt < ctx.max_retries - 1
                · rw [if_pos hlast]
                  obtain ⟨t, c, s3, tr3, heq, hp⟩ := ih (attempt + 1) key2 s2 _ hne2 hidx2
                  exact ⟨t, c, s3, tr3, heq, trace_weaken rfl hp⟩
                · rw [if_neg hlast]
                  exact ⟨_, _, _, _, rfl, trace_extend rfl⟩
              · rw [if_neg h500]
                by_cases hlast : attempt < ctx.max_retries - 1
                · rw [if_pos hlast]
                  obtain ⟨t, c, s3, tr3, heq, hp⟩ := ih (attempt + 1) key2 s2 _ hne2 hidx2
                  exact ⟨t, c, s3, tr3, heq, trace_weaken rfl hp⟩
                · rw [if_neg hlast]
                  exact ⟨_, _, _, _, rfl, trace_extend rfl⟩
      | timeout =>
          dsimp only
          by_cases hlast : attempt < ctx.max_retries - 1
          · rw [if_pos hlast]
            obtain ⟨t, c, s3, tr3, heq, hp⟩ := ih (attempt + 1) key2 s2 _ hne2 hidx2
            exact ⟨t, c, s3, tr3, heq, trace_weaken rfl hp⟩
          · rw [if_neg hlast]
            exact ⟨_, _, _, _, rfl, trace_extend rfl⟩
      | connError =>
          dsimp only
          by_cases hlast : attempt < ctx.max_retries - 1
          · rw [if_pos hlast]
            obtain ⟨t, c, s3, tr3, heq, hp⟩ := ih (attempt + 1) key2 s2 _ hne2 hidx2
            exact ⟨t, c, s3, tr3, heq, trace_weaken rfl hp⟩
          · rw [if_neg hlast]
            exact ⟨_, _, _, _, rfl, trace_extend rfl⟩
      | exc msg =>
          dsimp only
          by_cases hlast : attempt < ctx.max_retries - 1
          · rw [if_pos hlast]
            obtain ⟨t, c, s3, tr3, heq, hp⟩ := ih (attempt + 1) key2 s2 _ hne2 hidx2
            exact ⟨t, c, s3, tr3, heq, trace_weaken rfl hp⟩
          · rw [if_neg hlast]
            exact ⟨_, _, _, _, rfl, trace_extend rfl⟩

/-! ## Claim C1: the dispatch core never lets an exception escape -/

/-- C1: for every behaviour of the external call on every attempt - success,
empty body, any HTTP status, timeout, connection failure, or any other
exception - and for every state whose credential pool is non-empty with the
cursor in range (the data-model invariant of the pool),
create_empathetic_response returns text (Except.ok), never an escaping
exception. -/
theorem C1_dispatch_never_raises (beh : Nat → AttemptResult)
    (jitter429 jitterConn : Nat → ℚ) (initial_delay : ℚ) (svc : LLMService)
    (user_message emotion : String) (confidence : ℚ)
    (context_messages : Option (List Msg)) (conversation_subject : Option String)
    (selected_model : String)
    (hne : svc.api_keys ≠ []) (hidx : svc.current_key_index < svc.api_keys.length) :
    (create_empathetic_response beh jitter429 jitterConn initial_delay svc user_message
      emotion confidence context_messages conversation_subject selected_model).isOk = true := by
  unfold create_empathetic_response
  rw [get_next_api_key_eq svc hidx]
  dsimp only
  obtain ⟨t, c, s1, tr1, heq, -⟩ := attemptLoop_ok
    { beh := beh, jitter429 := jitter429, jitterConn := jitterConn,
      max_retries := svc.api_keys.length * 2, selected_model := selected_model,
      messages := buildMessages (get_educational_system_prompt emotion conversation_subject)
        context_messages user_message,
      emotion := emotion, confidence := confidence, user_message := user_message }
    (svc.api_keys.length * 2) 0 (svc.api_keys.getD svc.current_key_index "")
    { svc with current_key_index := (svc.current_key_index + 1) % svc.api_keys.length } []
    hne (Nat.mod_lt _ (List.length_pos.mpr hne))
  rw [heq]
  rfl

/-- C1 witness: a single-credential pool with a downstream that times out on
every attempt still yields an ok result. -/
theorem C1_dispatch_never_raises_witness :
    (create_empathetic_response (fun _ => AttemptResult.timeout) (fun _ => 0) (fun _ => 0) 0
      ⟨["k1"], ["m1"], 0, none, none⟩ "halo" "Netral" 0 none none "m1").isOk = true :=
  C1_dispatch_never_raises (fun _ => AttemptResult.timeout) (fun _ => 0) (fun _ => 0) 0
    ⟨["k1"], ["m1"], 0, none, none⟩ "halo" "Netral" 0 none none "m1"
    (by decide) (by decide)

/-! ## Claim C7: one model per logical request -/

/-- C7: the model is drawn once before the loop (selected_model is fixed for
the whole logical request in the embedding, mirroring the single
random.choice before the for-loop) and every attempt's outbound payload
carries that same model name, whatever the behaviour of the downstream. -/
theorem C7_model_fixed_per_request (beh : Nat → AttemptResult)
    (jitter429 jitterConn : Nat → ℚ) (initial_delay : ℚ) (svc : LLMService)
    (user_message emotion : String) (confidence : ℚ)
    (context_messages : Option (List Msg)) (conversation_subject : Option String)
    (selected_model : String)
    (hne : svc.api_keys ≠ []) (hidx : svc.current_key_index < svc.api_keys.length) :
    (create_empathetic_response beh jitter429 jitterConn initial_delay svc user_message
      emotion confidence context_messages conversation_subject selected_model).map
      (fun out => out.2.2.2.all (fun r => r.payload.model == selected_model)) =
      .ok true := by
  unfold create_empathetic_response
  rw [get_next_api_key_eq svc hidx]
  dsimp only
  obtain ⟨t, c, s1, tr1, heq, hp⟩ := attemptLoop_ok
    { beh := beh, jitter429 := jitter429, jitterConn := jitterConn,
      max_retries := svc.api_keys.length * 2, selected_model := selected_model,
      messages := buildMessages (get_educational_system_prompt emotion conversation_subject)
        context_messages user_message,
      emotion := emotion, confidence := confidence, user_message := user_message }
    (svc.api_keys.length * 2) 0 (svc.api_keys.getD svc.current_key_index "")
    { svc with current_key_index := (svc.current_key_index + 1) % svc.api_keys.length } []
    hne (Nat.mod_lt _ (List.length_pos.mpr hne))
  rw [heq]
  refine congrArg Except.ok ?_
  rw [List.all_eq_true]
  intro r hr
  rcases hp r hr with h | h
  · exact absurd h (List.not_mem_nil r)
  · exact beq_iff_eq.mpr h

/-- C7 witness: two attempts (429 then again 429) on a one-credential pool;
both recorded payloads carry the selected model. -/
theorem C7_model_fixed_per_request_witness :
    (create_empathetic_response (fun _ => AttemptResult.resp 429 none) (fun _ => 0) (fun _ => 0) 0
      ⟨["k1"], ["m1"], 0, none, none⟩ "hai" "Senang" 0 none none "m1").map
      (fun out => out.2.2.2.all (fun r => r.payload.model == "m1")) = .ok true :=
  C7_model_fixed_per_request (fun _ => AttemptResult.resp 429 none) (fun _ => 0) (fun _ => 0) 0
    ⟨["k1"], ["m1"], 0, none, none⟩ "hai" "Senang" 0 none none "m1"
    (by decide) (by decide)

theorem attemptLoop_all500 (ctx : LoopCtx) (keys : List String) (c0 : Nat)
    (hbe : ∀ i, ctx.beh i = AttemptResult.resp 500 none)
    (hc0 : c0 < keys.length) (hmr : 1 ≤ ctx.max_retries) :
    ∀ (fuel attempt : Nat) (key : String) (s : LLMService) (tr : List AttemptRecord),
      s.api_keys = keys →
      s.current_key_index = (c0 + max attempt 1) % keys.length →
      fuel + attempt = ctx.max_retries →
      (attempt = 0 → key = keys.getD (c0 % keys.length) "") →
      attemptLoop ctx fuel attempt key s tr =
        .ok (get_fallback_response ctx.emotion ctx.user_message, OutcomeClass.generic,
             { s with current_key_index := (c0 + ctx.max_retries) % keys.length },
             tr ++ (List.range' attempt fuel).map (fun i =>
               { ordinal := i, key := keys.getD ((c0 + i) % keys.length) "",
                 payload := { model := ctx.selected_model, messages := ctx.messages,
                              max_tokens := 1000, temperature := 8 / 10, top_p := 9 / 10 },
                 backoff := if i < ctx.max_retries - 1 then some (base_delay * 2 ^ i)
                            else none })) := by
  intro fuel
  induction fuel with
  | zero =>
      intro attempt key s tr hkeys hcur hfa hkey0
      have ha : attempt = ctx.max_retries := by omega
      subst ha
      have hma : max ctx.max_retries 1 = ctx.max_retries := by omega
      rw [hma] at hcur
      simp only [attemptLoop, List.map_nil, List.append_nil,
        show List.range' ctx.max_retries 0 = ([] : List Nat) from rfl]
      rw [← hcur]
  | succ fuel ih =>
      intro attempt key s tr hkeys hcur hfa hkey0
      have hK : 0 < keys.length := Nat.lt_of_le_of_lt (Nat.zero_le c0) hc0
      obtain ⟨key2, hrot, hkey2⟩ :
          ∃ key2, (if attempt > 0 then get_next_api_key s else Except.ok (key, s)) =
              Except.ok (key2, { s with
                current_key_index := (c0 + (attempt + 1)) % keys.length }) ∧
              key2 = keys.getD ((c0 + attempt) % keys.length) "" := by
        by_cases ha : attempt > 0
        · have hma : max attempt 1 = attempt := by omega
          rw [hma] at hcur
          have hidx : s.current_key_index < s.api_keys.length := by
            rw [hcur, hkeys]
            exact Nat.mod_lt _ hK
          rw [if_pos ha, get_next_api_key_eq s hidx]
          have hnew : (s.current_key_index + 1) % s.api_keys.length =
              (c0 + (attempt + 1)) % keys.length := by
            rw [hcur, hkeys, Nat.mod_add_mod, Nat.add_assoc]
          rw [hnew]
          refine ⟨_, rfl, ?_⟩
          rw [hkeys, hcur]
        · have ha0 : attempt = 0 := by omega
          subst ha0
          have hcur1 : s.current_key_index = (c0 + (0 + 1)) % keys.length := by
            rw [hcur]
            norm_num
          rw [if_neg ha, ← hcur1]
          refine ⟨key, rfl, ?_⟩
          rw [hkey0 rfl]
          have : c0 + 0 = c0 := by omega
          rw [this]
      simp only [attemptLoop, hrot]
      rw [hbe attempt]
      dsimp only
      rw [if_neg (by decide : ¬ (500 : Nat) = 200),
          if_neg (by decide : ¬ (500 : Nat) = 429),
          if_pos (by decide : (500 : Nat) ≤ 500)]
      cases fuel with
      | zero =>
          have hlast : ¬ attempt < ctx.max_retries - 1 := by omega
          rw [if_neg hlast]
          have h1 : attempt + 1 = ctx.max_retries := by omega
          rw [h1, hkey2]
          simp only [Nat.zero_add, List.range'_one, List.map_cons, List.map_nil]
          rw [if_neg hlast]
      | succ fuel2 =>
          have hlast : attempt < ctx.max_retries - 1 := by omega
          rw [if_pos hlast]
          have hA : ({ s with current_key_index := (c0 + (attempt + 1)) % keys.length } :
              LLMService).api_keys = keys := hkeys
          have hB : ({ s with current_key_index := (c0 + (attempt + 1)) % keys.length } :
              LLMService).current_key_index = (c0 + max (attempt + 1) 1) % keys.length := by
            show (c0 + (attempt + 1)) % keys.length = _
            have hm : max (attempt + 1) 1 = attempt + 1 := by omega
            rw [hm]
          have hC : fuel2 + 1 + (attempt + 1) = ctx.max_retries := by omega
          have hD : attempt + 1 = 0 → key2 = keys.getD (c0 % keys.length) "" := by
            intro h
            exact absurd h (by omega)
          refine Eq.trans (ih (attempt + 1) key2 _ _ hA hB hC hD) ?_
          rw [hkey2, List.append_assoc, List.singleton_append]
          conv_rhs => rw [List.range'_succ, List.map_cons]
          dsimp only
          rw [if_pos hlast]

/-! ## Claim C4: all-500 downstream exhausts exactly 2K attempts -/

/-- C4: for a pool of size K >= 1 and a downstream that returns HTTP 500 on
every attempt, create_empathetic_response performs exactly
maxAttempts = 2 x K attempts (the configuration-derived bound, which is at
least 1 here since K >= 1), returns the generic-class fallback, and the
backoff delays taken between attempts (base_delay * 2 ^ attempt after every
attempt but the last) are non-decreasing across attempts. -/
theorem C4_all500_generic_fallback (keys models : List String) (c0 : Nat)
    (lm lk : Option String) (jitter429 jitterConn : Nat → ℚ) (initial_delay : ℚ)
    (user_message emotion : String) (confidence : ℚ)
    (context_messages : Option (List Msg)) (conversation_subject : Option String)
    (selected_model : String) (hne : keys ≠ []) (hc0 : c0 < keys.length) :
    (create_empathetic_response (fun _ => AttemptResult.resp 500 none) jitter429 jitterConn
        initial_delay ⟨keys, models, c0, lm, lk⟩ user_message emotion confidence
        context_messages conversation_subject selected_model).map (fun o => o.2.1) =
      .ok OutcomeClass.generic ∧
    (create_empathetic_response (fun _ => AttemptResult.resp 500 none) jitter429 jitterConn
        initial_delay ⟨keys, models, c0, lm, lk⟩ user_message emotion confidence
        context_messages conversation_subject selected_model).map
      (fun o => o.2.2.2.length) = .ok (2 * keys.length) ∧
    (create_empathetic_response (fun _ => AttemptResult.resp 500 none) jitter429 jitterConn
        initial_delay ⟨keys, models, c0, lm, lk⟩ user_message emotion confidence
        context_messages conversation_subject selected_model).map
      (fun o => o.2.2.2.map AttemptRecord.backoff) =
      .ok ((List.range (2 * keys.length)).map (fun i =>
        if i < 2 * keys.length - 1 then some (base_delay * 2 ^ i) else none)) ∧
    (create_empathetic_response (fun _ => AttemptResult.resp 500 none) jitter429 jitterConn
        initial_delay ⟨keys, models, c0, lm, lk⟩ user_message emotion confidence
        context_messages conversation_subject selected_model).map
      (fun o => decide (List.Chain' (· ≤ ·) (o.2.2.2.filterMap AttemptRecord.backoff))) =
      .ok true := by
  have hK : 0 < keys.length := List.length_pos.mpr hne
  have hrun := attemptLoop_all500
    { beh := fun _ => AttemptResult.resp 500 none, jitter429 := jitter429,
      jitterConn := jitterConn, max_retries := keys.length * 2,
      selected_model := selected_model,
      messages := buildMessages (get_educational_system_prompt emotion conversation_subject)
        context_messages user_message,
      emotion := emotion, confidence := confidence, user_message := user_message }
    keys c0 (fun _ => rfl) hc0 (by show 1 ≤ keys.length * 2; omega)
    (keys.length * 2) 0 (keys.getD c0 "")
    ⟨keys, models, (c0 + 1) % keys.length, lm, lk⟩ []
    rfl
    (by show (c0 + 1) % keys.length = (c0 + max 0 1) % keys.length; norm_num)
    rfl
    (fun _ => by rw [Nat.mod_eq_of_lt hc0])
  refine ⟨?_, ?_, ?_, ?_⟩
  · unfold create_empathetic_response
    rw [get_next_api_key_eq ⟨keys, models, c0, lm, lk⟩ hc0]
    dsimp only
    rw [hrun]
    rfl
  · unfold create_empathetic_response
    rw [get_next_api_key_eq ⟨keys, models, c0, lm, lk⟩ hc0]
    dsimp only
    rw [hrun]
    dsimp only [Except.map]
    rw [List.nil_append, List.length_map, List.length_range', Nat.mul_comm]
  · unfold create_empathetic_response
    rw [get_next_api_key_eq ⟨keys, models, c0, lm, lk⟩ hc0]
    dsimp only
    rw [hrun]
    dsimp only [Except.map]
    refine congrArg Except.ok ?_
    rw [List.nil_append, List.map_map, List.range_eq_range']
    simp only [Nat.mul_comm 2 keys.length]
    apply List.map_congr_left
    intro i _
    rfl
  · unfold create_empathetic_response
    rw [get_next_api_key_eq ⟨keys, models, c0, lm, lk⟩ hc0]
    dsimp only
    rw [hrun]
    dsimp only [Except.map]
    refine congrArg Except.ok ?_
    rw [decide_eq_true_eq, List.nil_append, List.filterMap_map]
    apply List.Pairwise.chain'
    rw [List.pairwise_filterMap]
    refine (List.pairwise_lt_range' 0 (keys.length * 2)).imp ?_
    intro a b hab x hx y hy
    simp only [Function.comp_apply] at hx hy
    by_cases ha : a < keys.length * 2 - 1
    · rw [if_pos ha] at hx
      by_cases hb : b < keys.length * 2 - 1
      · rw [if_pos hb] at hy
        have hx2 : base_delay * 2 ^ a = x := by
          simpa [Option.mem_def] using hx
        have hy2 : base_delay * 2 ^ b = y := by
          simpa [Option.mem_def] using hy
        subst hx2
        subst hy2
        have hpow : (2 : ℚ) ^ a ≤ 2 ^ b :=
          pow_le_pow_right₀ (by norm_num) hab.le
        have hbd : (0 : ℚ) ≤ base_delay := by norm_num [base_delay]
        exact mul_le_mul_of_nonneg_left hpow hbd
      · rw [if_neg hb] at hy
        exact absurd (Option.mem_def.mp hy) (by simp)
    · rw [if_neg ha] at hx
      exact absurd (Option.mem_def.mp hx) (by simp)

/-- C4 witness: a one-credential pool and the all-500 downstream; two
attempts, generic fallback, with one backoff delay taken. -/
theorem C4_all500_generic_fallback_witness :
    (create_empathetic_response (fun _ => AttemptResult.resp 500 none) (fun _ => 0) (fun _ => 0) 0
        ⟨["k1"], ["m1"], 0, none, none⟩ "halo" "Netral" 0 none none "m1").map (fun o => o.2.1) =
      .ok OutcomeClass.generic ∧
    (create_empathetic_response (fun _ => AttemptResult.resp 500 none) (fun _ => 0) (fun _ => 0) 0
        ⟨["k1"], ["m1"], 0, none, none⟩ "halo" "Netral" 0 none none "m1").map
      (fun o => o.2.2.2.length) = .ok (2 * ["k1"].length) ∧
    (create_empathetic_response (fun _ => AttemptResult.resp 500 none) (fun _ => 0) (fun _ => 0) 0
        ⟨["k1"], ["m1"], 0, none, none⟩ "halo" "Netral" 0 none none "m1").map
      (fun o => o.2.2.2.map AttemptRecord.backoff) =
      .ok ((List.range (2 * ["k1"].length)).map (fun i =>
        if i < 2 * ["k1"].length - 1 then some (base_delay * 2 ^ i) else none)) ∧
    (create_empathetic_response (fun _ => AttemptResult.resp 500 none) (fun _ => 0) (fun _ => 0) 0
        ⟨["k1"], ["m1"], 0, none, none⟩ "halo" "Netral" 0 none none "m1").map
      (fun o => decide (List.Chain' (· ≤ ·) (o.2.2.2.filterMap AttemptRecord.backoff))) =
      .ok true :=
  C4_all500_generic_fallback ["k1"] ["m1"] 0 none none (fun _ => 0) (fun _ => 0) 0
    "halo" "Netral" 0 none none "m1" (by decide) (by decide)

/-! ## Claim C3: other HTTP statuses retry with no backoff delay -/

theorem attemptLoop_other_status (ctx : LoopCtx) (keys : List String) (c0 code : Nat)
    (hbe : ∀ i, ctx.beh i = AttemptResult.resp code none)
    (h200 : ¬ code = 200) (h429 : ¬ code = 429) (h500 : ¬ 500 ≤ code)
    (hc0 : c0 < keys.length) (hmr : 1 ≤ ctx.max_retries) :
    ∀ (fuel attempt : Nat) (key : String) (s : LLMService) (tr : List AttemptRecord),
      s.api_keys = keys →
      s.current_key_index = (c0 + max attempt 1) % keys.length →
      fuel + attempt = ctx.max_retries →
      (attempt = 0 → key = keys.getD (c0 % keys.length) "") →
      attemptLoop ctx fuel attempt key s tr =
        .ok (get_fallback_response ctx.emotion ctx.user_message, OutcomeClass.generic,
             { s with current_key_index := (c0 + ctx.max_retries) % keys.length },
             tr ++ (List.range' attempt fuel).map (fun i =>
               { ordinal := i, key := keys.getD ((c0 + i) % keys.length) "",
                 payload := { model := ctx.selected_model, messages := ctx.messages,
                              max_tokens := 1000, temperature := 8 / 10, top_p := 9 / 10 },
                 backoff := none })) := by
  intro fuel
  induction fuel with
  | zero =>
      intro attempt key s tr hkeys hcur hfa hkey0
      have ha : attempt = ctx.max_retries := by omega
      subst ha
      have hma : max ctx.max_retries 1 = ctx.max_retries := by omega
      rw [hma] at hcur
      simp only [attemptLoop, List.map_nil, List.append_nil,
        show List.range' ctx.max_retries 0 = ([] : List Nat) from rfl]
      rw [← hcur]
  | succ fuel ih =>
      intro attempt key s tr hkeys hcur hfa hkey0
      have hK : 0 < keys.length := Nat.lt_of_le_of_lt (Nat.zero_le c0) hc0
      obtain ⟨key2, hrot, hkey2⟩ :
          ∃ key2, (if attempt > 0 then get_next_api_key s else Except.ok (key, s)) =
              Except.ok (key2, { s with
                current_key_index := (c0 + (attempt + 1)) % keys.length }) ∧
              key2 = keys.getD ((c0 + attempt) % keys.length) "" := by
        by_cases ha : attempt > 0
        · have hma : max attempt 1 = attempt := by omega
          rw [hma] at hcur
          have hidx : s.current_key_index < s.api_keys.length := by
            rw [hcur, hkeys]
            exact Nat.mod_lt _ hK
          rw [if_pos ha, get_next_api_key_eq s hidx]
          have hnew : (s.current_key_index + 1) % s.api_keys.length =
              (c0 + (attempt + 1)) % keys.length := by
            rw [hcur, hkeys, Nat.mod_add_mod, Nat.add_assoc]
          rw [hnew]
          refine ⟨_, rfl, ?_⟩
          rw [hkeys, hcur]
        · have ha0 : attempt = 0 := by omega
          subst ha0
          have hcur1 : s.current_key_index = (c0 + (0 + 1)) % keys.length := by
            rw [hcur]
            norm_num
          rw [if_neg ha, ← hcur1]
          refine ⟨key, rfl, ?_⟩
          rw [hkey0 rfl]
          have : c0 + 0 = c0 := by omega
          rw [this]
      simp only [attemptLoop, hrot]
      rw [hbe attempt]
      dsimp only
      rw [if_neg h200, if_neg h429, if_neg h500]
      cases fuel with
      | zero =>
          have hlast : ¬ attempt < ctx.max_retries - 1 := by omega
          rw [if_neg hlast]
          have h1 : attempt + 1 = ctx.max_retries := by omega
          rw [h1, hkey2]
          simp only [Nat.zero_add, List.range'_one, List.map_cons, List.map_nil]
      | succ fuel2 =>
          have hlast : attempt < ctx.max_retries - 1 := by omega
          rw [if_pos hlast]
          have hA : ({ s with current_key_index := (c0 + (attempt + 1)) % keys.length } :
              LLMService).api_keys = keys := hkeys
          have hB : ({ s with current_key_index := (c0 + (attempt + 1)) % keys.length } :
              LLMService).current_key_index = (c0 + max (attempt + 1) 1) % keys.length := by
            show (c0 + (attempt + 1)) % keys.length = _
            have hm : max (attempt + 1) 1 = attempt + 1 := by omega
            rw [hm]
          have hC : fuel2 + 1 + (attempt + 1) = ctx.max_retries := by omega
          have hD : attempt + 1 = 0 → key2 = keys.getD (c0 % keys.length) "" := by
            intro h
            exact absurd h (by omega)
          refine Eq.trans (ih (attempt + 1) key2 _ _ hA hB hC hD) ?_
          rw [hkey2, List.append_assoc, List.singleton_append]
          conv_rhs => rw [List.range'_succ, List.map_cons]

/-- C3 counterexample: with one credential (so maxAttempts = 2) and a
downstream that returns HTTP 403 on every attempt, the non-final attempt is
retried with NO backoff sleep at all - both recorded backoff fields are none,
not base x 2 ^ attempt as the claim states - before the generic fallback. -/
theorem C3_counterexample :
    (create_empathetic_response (fun _ => AttemptResult.resp 403 none) (fun _ => 0) (fun _ => 0) 0
        ⟨["k1"], ["m1"], 0, none, none⟩ "halo" "Netral" 0 none none "m1").map
      (fun o => o.2.2.2.map AttemptRecord.backoff) = .ok [none, none] ∧
    (create_empathetic_response (fun _ => AttemptResult.resp 403 none) (fun _ => 0) (fun _ => 0) 0
        ⟨["k1"], ["m1"], 0, none, none⟩ "halo" "Netral" 0 none none "m1").map
      (fun o => o.2.1) = .ok OutcomeClass.generic :=
  ⟨rfl, rfl⟩

/-- C3 (amended): in the retry loop, an attempt ending with an HTTP status
other than 200, 429 and 5xx is retried immediately - with no backoff delay -
when attempts remain, and yields the generic fallback otherwise: a run whose
every attempt gets such a status performs all 2 x K attempts with every
recorded backoff equal to none and ends in the generic-class fallback. -/
theorem C3_other_status_immediate_retry (keys models : List String) (c0 code : Nat)
    (lm lk : Option String) (jitter429 jitterConn : Nat → ℚ) (initial_delay : ℚ)
    (user_message emotion : String) (confidence : ℚ)
    (context_messages : Option (List Msg)) (conversation_subject : Option String)
    (selected_model : String) (hne : keys ≠ []) (hc0 : c0 < keys.length)
    (h200 : ¬ code = 200) (h429 : ¬ code = 429) (h500 : ¬ 500 ≤ code) :
    (create_empathetic_response (fun _ => AttemptResult.resp code none) jitter429 jitterConn
        initial_delay ⟨keys, models, c0, lm, lk⟩ user_message emotion confidence
        context_messages conversation_subject selected_model).map (fun o => o.2.1) =
      .ok OutcomeClass.generic ∧
    (create_empathetic_response (fun _ => AttemptResult.resp code none) jitter429 jitterConn
        initial_delay ⟨keys, models, c0, lm, lk⟩ user_message emotion confidence
        context_messages conversation_subject selected_model).map
      (fun o => o.2.2.2.length) = .ok (2 * keys.length) ∧
    (create_empathetic_response (fun _ => AttemptResult.resp code none) jitter429 jitterConn
        initial_delay ⟨keys, models, c0, lm, lk⟩ user_message emotion confidence
        context_messages conversation_subject selected_model).map
      (fun o => o.2.2.2.map AttemptRecord.backoff) =
      .ok (List.replicate (2 * keys.length) (none : Option ℚ)) := by
  have hK : 0 < keys.length := List.length_pos.mpr hne
  have hrun := attemptLoop_other_status
    { beh := fun _ => AttemptResult.resp code none, jitter429 := jitter429,
      jitterConn := jitterConn, max_retries := keys.length * 2,
      selected_model := selected_model,
      messages := buildMessages (get_educational_system_prompt emotion conversation_subject)
        context_messages user_message,
      emotion := emotion, confidence := confidence, user_message := user_message }
    keys c0 code (fun _ => rfl) h200 h429 h500 hc0 (by show 1 ≤ keys.length * 2; omega)
    (keys.length * 2) 0 (keys.getD c0 "")
    ⟨keys, models, (c0 + 1) % keys.length, lm, lk⟩ []
    rfl
    (by show (c0 + 1) % keys.length = (c0 + max 0 1) % keys.length; norm_num)
    rfl
    (fun _ => by rw [Nat.mod_eq_of_lt hc0])
  refine ⟨?_, ?_, ?_⟩
  · unfold create_empathetic_response
    rw [get_next_api_key_eq ⟨keys, models, c0, lm, lk⟩ hc0]
    dsimp only
    rw [hrun]
    rfl
  · unfold create_empathetic_response
    rw [get_next_api_key_eq ⟨keys, models, c0, lm, lk⟩ hc0]
    dsimp only
    rw [hrun]
    dsimp only [Except.map]
    rw [List.nil_append, List.length_map, List.length_range', Nat.mul_comm]
  · unfold create_empathetic_response
    rw [get_next_api_key_eq ⟨keys, models, c0, lm, lk⟩ hc0]
    dsimp only
    rw [hrun]
    dsimp only [Except.map]
    refine congrArg Except.ok ?_
    rw [List.nil_append, List.map_map, List.eq_replicate_iff]
    constructor
    · rw [List.length_map, List.length_range', Nat.mul_comm]
    · intro b hb
      rcases List.mem_map.mp hb with ⟨i, -, rfl⟩
      rfl

/-- C3 amended-claim witness: status 403 with one credential. -/
theorem C3_other_status_immediate_retry_witness :
    (create_empathetic_response (fun _ => AttemptResult.resp 403 none) (fun _ => 0) (fun _ => 0) 0
        ⟨["k1"], ["m1"], 0, none, none⟩ "hai" "Senang" 0 none none "m1").map
      (fun o => o.2.1) = .ok OutcomeClass.generic ∧
    (create_empathetic_response (fun _ => AttemptResult.resp 403 none) (fun _ => 0) (fun _ => 0) 0
        ⟨["k1"], ["m1"], 0, none, none⟩ "hai" "Senang" 0 none none "m1").map
      (fun o => o.2.2.2.length) = .ok (2 * ["k1"].length) ∧
    (create_empathetic_response (fun _ => AttemptResult.resp 403 none) (fun _ => 0) (fun _ => 0) 0
        ⟨["k1"], ["m1"], 0, none, none⟩ "hai" "Senang" 0 none none "m1").map
      (fun o => o.2.2.2.map AttemptRecord.backoff) =
      .ok (List.replicate (2 * ["k1"].length) (none : Option ℚ)) :=
  C3_other_status_immediate_retry ["k1"] ["m1"] 0 403 none none (fun _ => 0) (fun _ => 0) 0
    "hai" "Senang" 0 none none "m1" (by decide) (by decide) (by decide) (by decide) (by decide)

/-! ## Claim C5: 429s then a final success -/

theorem attemptLoop_429_success (ctx : LoopCtx) (keys : List String) (c0 : Nat) (ans : String)
    (hbe429 : ∀ i, i < ctx.max_retries - 1 → ctx.beh i = AttemptResult.resp 429 none)
    (hbeS : ctx.beh (ctx.max_retries - 1) = AttemptResult.resp 200 (some ans))
    (hc0 : c0 < keys.length) :
    ∀ (fuel attempt : Nat) (key : String) (s : LLMService) (tr : List AttemptRecord),
      s.api_keys = keys →
      s.current_key_index = (c0 + max attempt 1) % keys.length →
      fuel + attempt = ctx.max_retries →
      (attempt = 0 → key = keys.getD (c0 % keys.length) "") →
      1 ≤ fuel →
      attemptLoop ctx fuel attempt key s tr =
        .ok (enhance_educational_response ans.trim ctx.emotion ctx.confidence,
             OutcomeClass.success,
             { s with current_key_index := (c0 + ctx.max_retries) % keys.length,
                      last_used_model := some ctx.selected_model,
                      last_used_key :=
                        some (keys.getD ((c0 + (ctx.max_retries - 1)) % keys.length) "") },
             tr ++ (List.range' attempt fuel).map (fun i =>
               { ordinal := i, key := keys.getD ((c0 + i) % keys.length) "",
                 payload := { model := ctx.selected_model, messages := ctx.messages,
                              max_tokens := 1000, temperature := 8 / 10, top_p := 9 / 10 },
                 backoff := if i < ctx.max_retries - 1 then some (ctx.jitter429 i)
                            else none })) := by
  intro fuel
  induction fuel with
  | zero =>
      intro attempt key s tr hkeys hcur hfa hkey0 hf
      exact absurd hf (by omega)
  | succ fuel ih =>
      intro attempt key s tr hkeys hcur hfa hkey0 hf
      have hK : 0 < keys.length := Nat.lt_of_le_of_lt (Nat.zero_le c0) hc0
      obtain ⟨key2, hrot, hkey2⟩ :
          ∃ key2, (if attempt > 0 then get_next_api_key s else Except.ok (key, s)) =
              Except.ok (key2, { s with
                current_key_index := (c0 + (attempt + 1)) % keys.length }) ∧
              key2 = keys.getD ((c0 + attempt) % keys.length) "" := by
        by_cases ha : attempt > 0
        · have hma : max attempt 1 = attempt := by omega
          rw [hma] at hcur
          have hidx : s.current_key_index < s.api_keys.length := by
            rw [hcur, hkeys]
            exact Nat.mod_lt _ hK
          rw [if_pos ha, get_next_api_key_eq s hidx]
          have hnew : (s.current_key_index + 1) % s.api_keys.length =
              (c0 + (attempt + 1)) % keys.length := by
            rw [hcur, hkeys, Nat.mod_add_mod, Nat.add_assoc]
          rw [hnew]
          refine ⟨_, rfl, ?_⟩
          rw [hkeys, hcur]
        · have ha0 : attempt = 0 := by omega
          subst ha0
          have hcur1 : s.current_key_index = (c0 + (0 + 1)) % keys.length := by
            rw [hcur]
            norm_num
          rw [if_neg ha, ← hcur1]
          refine ⟨key, rfl, ?_⟩
          rw [hkey0 rfl]
          have : c0 + 0 = c0 := by omega
          rw [this]
      simp only [attemptLoop, hrot]
      cases fuel with
      | zero =>
          have hat : attempt = ctx.max_retries - 1 := by omega
          have hb : ctx.beh attempt = AttemptResult.resp 200 (some ans) := by
            rw [hat]
            exact hbeS
          rw [hb]
          dsimp only
          rw [if_pos rfl]
          have h1 : attempt + 1 = ctx.max_retries := by omega
          have hlast : ¬ attempt < ctx.max_retries - 1 := by omega
          rw [hkey2, h1]
          conv_rhs => rw [← hat]
          simp only [Nat.zero_add, List.range'_one, List.map_cons, List.map_nil]
          rw [if_neg (lt_irrefl attempt)]
      | succ fuel2 =>
          have hlast : attempt < ctx.max_retries - 1 := by omega
          rw [hbe429 attempt (by omega)]
          dsimp only
          rw [if_neg (by decide : ¬ (429 : Nat) = 200),
              if_pos (rfl : (429 : Nat) = 429), if_pos hlast]
          have hA : ({ s with current_key_index := (c0 + (attempt + 1)) % keys.length } :
              LLMService).api_keys = keys := hkeys
          have hB : ({ s with current_key_index := (c0 + (attempt + 1)) % keys.length } :
              LLMService).current_key_index = (c0 + max (attempt + 1) 1) % keys.length := by
            show (c0 + (attempt + 1)) % keys.length = _
            have hm : max (attempt + 1) 1 = attempt + 1 := by omega
            rw [hm]
          have hC : fuel2 + 1 + (attempt + 1) = ctx.max_retries := by omega
          have hD : attempt + 1 = 0 → key2 = keys.getD (c0 % keys.length) "" := by
            intro h
            exact absurd h (by omega)
          refine Eq.trans (ih (attempt + 1) key2 _ _ hA hB hC hD (by omega)) ?_
          rw [hkey2, List.append_assoc, List.singleton_append]
          conv_rhs => rw [List.range'_succ, List.map_cons]
          dsimp only
          rw [if_pos hlast]

/-- C5: for a pool of size K >= 1, a downstream that answers 429 on the first
maxAttempts - 1 attempts and a non-empty 200 answer on the last attempt,
create_empathetic_response terminates in success with the enhanced answer,
the recorded last_used_key is the credential of the last attempt, the
rotation cursor has advanced exactly maxAttempts positions from its initial
value, and the attempts used the pool cyclically from the cursor. -/
theorem C5_last_attempt_success (keys models : List String) (c0 : Nat) (ans : String)
    (lm lk : Option String) (jitter429 jitterConn : Nat → ℚ) (initial_delay : ℚ)
    (user_message emotion : String) (confidence : ℚ)
    (context_messages : Option (List Msg)) (conversation_subject : Option String)
    (selected_model : String) (hne : keys ≠ []) (hc0 : c0 < keys.length) :
    (create_empathetic_response
        (fun i => if i < 2 * keys.length - 1 then AttemptResult.resp 429 none
                  else AttemptResult.resp 200 (some ans))
        jitter429 jitterConn initial_delay ⟨keys, models, c0, lm, lk⟩ user_message emotion
        confidence context_messages conversation_subject selected_model).map
      (fun o => o.2.1) = .ok OutcomeClass.success ∧
    (create_empathetic_response
        (fun i => if i < 2 * keys.length - 1 then AttemptResult.resp 429 none
                  else AttemptResult.resp 200 (some ans))
        jitter429 jitterConn initial_delay ⟨keys, models, c0, lm, lk⟩ user_message emotion
        confidence context_messages conversation_subject selected_model).map
      (fun o => o.1) = .ok (enhance_educational_response ans.trim emotion confidence) ∧
    (create_empathetic_response
        (fun i => if i < 2 * keys.length - 1 then AttemptResult.resp 429 none
                  else AttemptResult.resp 200 (some ans))
        jitter429 jitterConn initial_delay ⟨keys, models, c0, lm, lk⟩ user_message emotion
        confidence context_messages conversation_subject selected_model).map
      (fun o => o.2.2.1.last_used_key) =
      .ok (some (keys.getD ((c0 + (2 * keys.length - 1)) % keys.length) "")) ∧
    (create_empathetic_response
        (fun i => if i < 2 * keys.length - 1 then AttemptResult.resp 429 none
                  else AttemptResult.resp 200 (some ans))
        jitter429 jitterConn initial_delay ⟨keys, models, c0, lm, lk⟩ user_message emotion
        confidence context_messages conversation_subject selected_model).map
      (fun o => o.2.2.1.current_key_index) = .ok ((c0 + 2 * keys.length) % keys.length) ∧
    (create_empathetic_response
        (fun i => if i < 2 * keys.length - 1 then AttemptResult.resp 429 none
                  else AttemptResult.resp 200 (some ans))
        jitter429 jitterConn initial_delay ⟨keys, models, c0, lm, lk⟩ user_message emotion
        confidence context_messages conversation_subject selected_model).map
      (fun o => o.2.2.2.map AttemptRecord.key) =
      .ok ((List.range (2 * keys.length)).map
        (fun i => keys.getD ((c0 + i) % keys.length) "")) := by
  have hK : 0 < keys.length := List.length_pos.mpr hne
  have hrun := attemptLoop_429_success
    { beh := fun i => if i < 2 * keys.length - 1 then AttemptResult.resp 429 none
             else AttemptResult.resp 200 (some ans),
      jitter429 := jitter429, jitterConn := jitterConn,
      max_retries := keys.length * 2, selected_model := selected_model,
      messages := buildMessages (get_educational_system_prompt emotion conversation_subject)
        context_messages user_message,
      emotion := emotion, confidence := confidence, user_message := user_message }
    keys c0 ans
    (fun i hi => if_pos (by
      have hi2 : i < keys.length * 2 - 1 := hi
      omega))
    (if_neg (by
      show ¬ (keys.length * 2 - 1 < 2 * keys.length - 1)
      omega))
    hc0
    (keys.length * 2) 0 (keys.getD c0 "")
    ⟨keys, models, (c0 + 1) % keys.length, lm, lk⟩ []
    rfl
    (by show (c0 + 1) % keys.length = (c0 + max 0 1) % keys.length; norm_num)
    rfl
    (fun _ => by rw [Nat.mod_eq_of_lt hc0])
    (by omega)
  refine ⟨?_, ?_, ?_, ?_, ?_⟩
  · unfold create_empathetic_response
    rw [get_next_api_key_eq ⟨keys, models, c0, lm, lk⟩ hc0]
    dsimp only
    rw [hrun]
    rfl
  · unfold create_empathetic_response
    rw [get_next_api_key_eq ⟨keys, models, c0, lm, lk⟩ hc0]
    dsimp only
    rw [hrun]
    rfl
  · unfold create_empathetic_response
    rw [get_next_api_key_eq ⟨keys, models, c0, lm, lk⟩ hc0]
    dsimp only
    rw [hrun]
    dsimp only [Except.map]
    rw [show keys.length * 2 = 2 * keys.length from by omega]
  · unfold create_empathetic_response
    rw [get_next_api_key_eq ⟨keys, models, c0, lm, lk⟩ hc0]
    dsimp only
    rw [hrun]
    dsimp only [Except.map]
    rw [show keys.length * 2 = 2 * keys.length from by omega]
  · unfold create_empathetic_response
    rw [get_next_api_key_eq ⟨keys, models, c0, lm, lk⟩ hc0]
    dsimp only
    rw [hrun]
    dsimp only [Except.map]
    refine congrArg Except.ok ?_
    rw [List.nil_append, List.map_map, List.range_eq_range']
    rw [show 2 * keys.length = keys.length * 2 from by omega]
    apply List.map_congr_left
    intro i _
    rfl

/-- C5 witness: two credentials, three 429s then a success on the fourth and
last attempt. -/
theorem C5_last_attempt_success_witness :
    (create_empathetic_response
        (fun i => if i < 2 * ["a", "b"].length - 1 then AttemptResult.resp 429 none
                  else AttemptResult.resp 200 (some "jawab"))
        (fun _ => 0) (fun _ => 0) 0 ⟨["a", "b"], ["m1"], 0, none, none⟩ "hai" "Senang"
        0 none none "m1").map
      (fun o => o.2.1) = .ok OutcomeClass.success ∧
    (create_empathetic_response
        (fun i => if i < 2 * ["a", "b"].length - 1 then AttemptResult.resp 429 none
                  else AttemptResult.resp 200 (some "jawab"))
        (fun _ => 0) (fun _ => 0) 0 ⟨["a", "b"], ["m1"], 0, none, none⟩ "hai" "Senang"
        0 none none "m1").map
      (fun o => o.1) = .ok (enhance_educational_response "jawab".trim "Senang" 0) ∧
    (create_empathetic_response
        (fun i => if i < 2 * ["a", "b"].length - 1 then AttemptResult.resp 429 none
                  else AttemptResult.resp 200 (some "jawab"))
        (fun _ => 0) (fun _ => 0) 0 ⟨["a", "b"], ["m1"], 0, none, none⟩ "hai" "Senang"
        0 none none "m1").map
      (fun o => o.2.2.1.last_used_key) =
      .ok (some (["a", "b"].getD ((0 + (2 * ["a", "b"].length - 1)) % ["a", "b"].length) "")) ∧
    (create_empathetic_response
        (fun i => if i < 2 * ["a", "b"].length - 1 then AttemptResult.resp 429 none
                  else AttemptResult.resp 200 (some "jawab"))
        (fun _ => 0) (fun _ => 0) 0 ⟨["a", "b"], ["m1"], 0, none, none⟩ "hai" "Senang"
        0 none none "m1").map
      (fun o => o.2.2.1.current_key_index) = .ok ((0 + 2 * ["a", "b"].length) % ["a", "b"].length) ∧
    (create_empathetic_response
        (fun i => if i < 2 * ["a", "b"].length - 1 then AttemptResult.resp 429 none
                  else AttemptResult.resp 200 (some "jawab"))
        (fun _ => 0) (fun _ => 0) 0 ⟨["a", "b"], ["m1"], 0, none, none⟩ "hai" "Senang"
        0 none none "m1").map
      (fun o => o.2.2.2.map AttemptRecord.key) =
      .ok ((List.range (2 * ["a", "b"].length)).map
        (fun i => ["a", "b"].getD ((0 + i) % ["a", "b"].length) "")) :=
  C5_last_attempt_success ["a", "b"] ["m1"] 0 "jawab" none none (fun _ => 0) (fun _ => 0) 0
    "hai" "Senang" 0 none none "m1" (by decide) (by decide)

end BackendRailway
